import Mathlib

/-
Verification of the browser MQTT client for the ESP32 smart-clock
(mqtt-client.js, config.js, and the earlier single-device client kept in
the repository).  The definitions below are a shallow embedding of the
JavaScript source: JS `null`/`undefined` string fields become `Option` or
the empty string, timestamps are `Int` epoch milliseconds, localStorage is
a pair of key-value maps, and the callback-based promise code is modelled
as total functions returning `Except` for rejection paths.  All
definitions are executable.
-/

namespace SmartClock

/-! ## Topic derivation (`_updateTopicsForDevice`, mqtt-client.js 151-169) -/

/-- Embeds `TOPIC_PREFIX` from the client configuration (mqtt-client.js line 11). -/
def topicBase : String := "smartclock/"

/-- Embeds the per-character effect of
`deviceId.toLowerCase().replace(/[^a-z0-9]/g, '_')` (mqtt-client.js 154-155,
ASCII model): lower-case the character, and replace anything outside
a-z / 0-9 by an underscore. -/
def normChar (c : Char) : Char :=
  let l := c.toLower
  if ('a' ≤ l ∧ l ≤ 'z') ∨ ('0' ≤ l ∧ l ≤ '9') then l else '_'

/-- The device key: the identifier lower-cased with every non-alphanumeric
character replaced by an underscore (mqtt-client.js 154-155). -/
def deviceKey (deviceId : String) : String :=
  String.mk (deviceId.data.map normChar)

/-- The derived topic set (mqtt-client.js 157-165).  The auth-response
entry keeps its per-request correlation placeholder. -/
structure Topics where
  command : String
  status : String
  alarm : String
  sensors : String
  auth : String
  authResponse : String
  test : String
deriving Repr, DecidableEq

/-- Embeds `_updateTopicsForDevice` (mqtt-client.js 151-169).  The source
returns without touching the topics when `currentDeviceId` is falsy
(null or the empty string); that early return is modelled as `none`. -/
def updateTopicsForDevice (currentDeviceId : String) : Option Topics :=
  if currentDeviceId = "" then none
  else
    let k := deviceKey currentDeviceId
    some
      { command := topicBase ++ k ++ "/command"
        status := topicBase ++ k ++ "/status"
        alarm := topicBase ++ k ++ "/alarm"
        sensors := topicBase ++ k ++ "/sensors"
        auth := topicBase ++ k ++ "/auth"
        authResponse := topicBase ++ k ++ "/auth/response/\x7bclientId\x7d"
        test := topicBase ++ k ++ "/test" }

/-! ## Token store (mqtt-client.js 175-267)

localStorage is modelled as the two JSON maps the client keeps there
(`smartclock_auth_tokens`, `smartclock_session_expiries`) plus the
`smartclock_last_device_id` key. -/

/-- The persisted token storage. -/
structure TokenStorage where
  authTokens : String → Option String
  sessionExpiries : String → Option Int
  lastDeviceId : Option String

/-- The in-memory token fields of the client (`this.authToken`,
`this.tokenExpiry`). -/
structure AuthState where
  authToken : Option String
  tokenExpiry : Option Int
deriving Repr, DecidableEq

/-- Embeds `_loadAuthToken` (mqtt-client.js 175-197).  Reads both maps at
the current device, then keeps the pair only when token and expiry are
truthy and `Date.now() < tokenExpiry`; otherwise the in-memory fields are
nulled.  The storage itself is returned unchanged: the source never
writes localStorage on this path. -/
def loadAuthToken (prior : AuthState) (currentDeviceId : String)
    (storage : TokenStorage) (now : Int) : AuthState × TokenStorage :=
  if currentDeviceId = "" then (prior, storage)
  else
    match storage.authTokens currentDeviceId,
          storage.sessionExpiries currentDeviceId with
    | some t, some e =>
        if t ≠ "" ∧ e ≠ 0 ∧ now < e then ({ authToken := some t, tokenExpiry := some e }, storage)
        else ({ authToken := none, tokenExpiry := none }, storage)
    | _, _ => ({ authToken := none, tokenExpiry := none }, storage)

/-- Embeds `_saveAuthToken` (mqtt-client.js 203-226): upserts token and
expiry for the current device and records it as last used.  The guard
mirrors `if (!this.currentDeviceId || !token) return`. -/
def saveAuthToken (currentDeviceId : String) (prior : AuthState)
    (storage : TokenStorage) (token : String) (expiry : Int) :
    AuthState × TokenStorage :=
  if currentDeviceId = "" ∨ token = "" then (prior, storage)
  else
    ({ authToken := some token, tokenExpiry := some expiry },
     { authTokens := fun d => if d = currentDeviceId then some token else storage.authTokens d
       sessionExpiries := fun d => if d = currentDeviceId then some expiry else storage.sessionExpiries d
       lastDeviceId := some currentDeviceId })

/-- Embeds `_clearAuthToken` (mqtt-client.js 232-253): deletes the token
and expiry records of the current device from both maps and nulls the
in-memory fields. -/
def clearAuthToken (currentDeviceId : String) (prior : AuthState)
    (storage : TokenStorage) : AuthState × TokenStorage :=
  if currentDeviceId = "" then (prior, storage)
  else
    ({ authToken := none, tokenExpiry := none },
     { authTokens := fun d => if d = currentDeviceId then none else storage.authTokens d
       sessionExpiries := fun d => if d = currentDeviceId then none else storage.sessionExpiries d
       lastDeviceId := storage.lastDeviceId })

/-- Embeds `_isTokenValid` (mqtt-client.js 259-267): falsy token or expiry
is invalid; an expiry in the past (`Date.now() >= tokenExpiry`) is invalid
and additionally purges the stored record via `_clearAuthToken`. -/
def isTokenValid (st : AuthState) (currentDeviceId : String)
    (storage : TokenStorage) (now : Int) : Bool × AuthState × TokenStorage :=
  match st.authToken, st.tokenExpiry with
  | some t, some e =>
      if t ≠ "" ∧ e ≠ 0 then
        if now ≥ e then
          let r := clearAuthToken currentDeviceId st storage
          (false, r.1, r.2)
        else (true, st, storage)
      else (false, st, storage)
  | _, _ => (false, st, storage)

/-! ## Offline queue (`_queueMessage`, src/unnamed/part_002 594-609) -/

/-- Publish options (qos / retain) as used by queue entries. -/
structure PublishOptions where
  qos : Nat
  retain : Bool
deriving Repr, DecidableEq

/-- One outbound queue entry (part_002 600-606). -/
structure QueueEntry where
  topic : String
  message : String
  options : PublishOptions
  timestamp : Int
  attempts : Nat
deriving Repr, DecidableEq

/-- Embeds `_queueMessage` (part_002 594-609): when the queue is at
capacity the oldest entry is shifted off, then the new entry is pushed.
The function is total: enqueue never blocks and never rejects. -/
def queueMessage (messageQueue : List QueueEntry) (maxQueueSize : Nat)
    (topic : String) (message : String) (options : PublishOptions)
    (now : Int) : List QueueEntry :=
  let q := if messageQueue.length ≥ maxQueueSize then messageQueue.tail else messageQueue
  q ++ [{ topic := topic, message := message, options := options,
          timestamp := now, attempts := 0 }]

/-- One pending publish request (argument tuple of a `_queueMessage` call). -/
structure PendingItem where
  topic : String
  message : String
  options : PublishOptions
  now : Int
deriving Repr, DecidableEq

/-- The queue entry a pending item becomes when enqueued. -/
def toQueueEntry (i : PendingItem) : QueueEntry :=
  { topic := i.topic, message := i.message, options := i.options,
    timestamp := i.now, attempts := 0 }

/-- Enqueue a sequence of pending items starting from a given queue. -/
def enqueueFrom (maxQueueSize : Nat) (q : List QueueEntry)
    (items : List PendingItem) : List QueueEntry :=
  items.foldl
    (fun acc i => queueMessage acc maxQueueSize i.topic i.message i.options i.now) q

/-- Enqueue a sequence of pending items into an initially empty queue. -/
def enqueueAll (maxQueueSize : Nat) (items : List PendingItem) : List QueueEntry :=
  enqueueFrom maxQueueSize [] items

/-! ## Client state, device switching, dispatch -/

/-- Lifecycle events raised by the claims under study. -/
inductive ClientEvent
  | maxReconnectAttempts (attempts maxAttempts : Nat)
  | deviceSwitched (oldDeviceId newDeviceId : String)
deriving Repr, DecidableEq

/-- A stored subscription record (mqtt-client.js 1090-1095). -/
structure Subscription where
  topic : String
  qos : Nat
  subscribedAt : Int
  deviceId : String
deriving Repr, DecidableEq

/-- The client-instance fields the claims depend on.  `currentDeviceId`
uses the empty string for the JS `null`, and `clientExists` models
`this.client !== null`. -/
structure ClientState where
  currentDeviceId : String
  clientExists : Bool
  connected : Bool
  authRequired : Bool
  auth : AuthState
  storage : TokenStorage
  topics : Option Topics
  subscriptions : List Subscription
  messageQueue : List QueueEntry
  maxQueueSize : Nat
  processQueueOnReconnect : Bool
  messagesSent : Nat

/-- Embeds JavaScript `String.prototype.trim`: strips leading and
trailing whitespace. -/
def jsTrim (s : String) : String :=
  String.mk (((s.data.dropWhile Char.isWhitespace).reverse.dropWhile
    Char.isWhitespace).reverse)

/-- Embeds `setDeviceId` (mqtt-client.js 108-145).  Empty or
whitespace-only input hits the guard
`if (!deviceId || deviceId.trim() === '')` and returns false before any
state is touched.  Otherwise the trimmed id is stored, the topic set is
recomputed, the token for the new device is loaded, and a
device_switched event is emitted.  The asynchronous
unsubscribe/resubscribe of the transport session is elided: it does not
affect the fields modelled here. -/
def setDeviceId (input : String) (s : ClientState) (now : Int) :
    Bool × ClientState × List ClientEvent :=
  if input = "" ∨ jsTrim input = "" then (false, s, [])
  else
    let oldDeviceId := s.currentDeviceId
    let newId := jsTrim input
    let s1 := { s with currentDeviceId := newId }
    let s2 := { s1 with topics := match updateTopicsForDevice newId with
                                  | some t => some t
                                  | none => s1.topics }
    let r := loadAuthToken s2.auth newId s2.storage now
    let s3 := { s2 with auth := r.1, storage := r.2 }
    (true, s3, [ClientEvent.deviceSwitched oldDeviceId newId])

/-- The rejection reasons of the dispatch paths (strings in the source). -/
inductive ClientError
  | deviceNotSet
  | notConnected
  | authenticationRequired
  | invalidButton
deriving Repr, DecidableEq

/-- Payload shapes of the typed convenience commands. -/
inductive CommandData
  | empty
  | button (btn : Int)
  | brightness (brightness : Int)
  | alarm (hour minute sound enable : Int) (label : String)
deriving Repr, DecidableEq

/-- The auth block of a command envelope (mqtt-client.js 955-959,
constant clientId metadata omitted). -/
structure AuthField where
  token : String
  deviceId : String
deriving Repr, DecidableEq

/-- The command envelope wire format (mqtt-client.js 952-963; the constant
source/version metadata is omitted). -/
structure CommandEnvelope where
  command : String
  data : CommandData
  auth : Option AuthField
  timestamp : Int
deriving Repr, DecidableEq

/-- Embeds `sendCommand` (mqtt-client.js 933-988), checks in source
order: device id set, client present and connected, then — only when
authentication is required — token validity (whose expiry check can purge
the stored token).  On success the envelope is published directly through
the transport; `sendCommand` never touches the offline queue. -/
def sendCommand (s : ClientState) (now : Int) (command : String)
    (data : CommandData) : ClientState × Except ClientError CommandEnvelope :=
  if s.currentDeviceId = "" then
    (s, Except.error ClientError.deviceNotSet)
  else if ¬ s.clientExists ∨ ¬ s.connected then
    (s, Except.error ClientError.notConnected)
  else if s.authRequired then
    let r := isTokenValid s.auth s.currentDeviceId s.storage now
    let s1 : ClientState := { s with auth := r.2.1, storage := r.2.2 }
    if r.1 = false then
      (s1, Except.error ClientError.authenticationRequired)
    else
      ({ s1 with messagesSent := s1.messagesSent + 1 },
       Except.ok
         { command := command, data := data
           auth := some { token := r.2.1.authToken.getD "", deviceId := s.currentDeviceId }
           timestamp := now })
  else
    ({ s with messagesSent := s.messagesSent + 1 },
     Except.ok { command := command, data := data, auth := none, timestamp := now })

/-- Result of a `publish` call that resolved. -/
inductive PublishOutcome
  | queued
  | published
deriving Repr, DecidableEq

/-- Embeds `publish` (mqtt-client.js 1157-1227): while disconnected with
queueing enabled the message is queued and the call resolves true;
otherwise a disconnected call rejects; a connected call publishes and
updates the statistics. -/
def publish (s : ClientState) (now : Int) (topic : String) (message : String)
    (options : PublishOptions) : ClientState × Except ClientError PublishOutcome :=
  if ¬ s.connected ∧ s.processQueueOnReconnect then
    ({ s with messageQueue :=
        queueMessage s.messageQueue s.maxQueueSize topic message options now },
     Except.ok PublishOutcome.queued)
  else if ¬ s.clientExists ∨ ¬ s.connected then
    (s, Except.error ClientError.notConnected)
  else
    ({ s with messagesSent := s.messagesSent + 1 },
     Except.ok PublishOutcome.published)

/-- Embeds `pressButton` (mqtt-client.js 1014-1019): a button number
outside 1..3 is rejected before `sendCommand` is reached. -/
def pressButton (s : ClientState) (now : Int) (button : Int) :
    ClientState × Except ClientError CommandEnvelope :=
  if button < 1 ∨ button > 3 then (s, Except.error ClientError.invalidButton)
  else sendCommand s now "button" (CommandData.button button)

/-- Embeds `setBrightness` (mqtt-client.js 1050-1052): the brightness
argument is forwarded to `sendCommand` as-is. -/
def setBrightness (s : ClientState) (now : Int) (brightness : Int) :
    ClientState × Except ClientError CommandEnvelope :=
  sendCommand s now "set_brightness" (CommandData.brightness brightness)

/-- Embeds the data field built by `COMMANDS.SET_BRIGHTNESS`
(config.js 185-193): `Math.min(100, Math.max(0, parseInt(b) || 50))`; on
an integer input `parseInt(b) || 50` maps 0 to 50 and keeps any other
value. -/
def configSetBrightnessData (brightness : Int) : Int :=
  min 100 (max 0 (if brightness = 0 then 50 else brightness))

/-! ## Reconnect backoff (`_scheduleReconnect`, part_002 476-512) -/

/-- Embeds `this.reconnectDelay` (2000 ms). -/
def reconnectDelayMs : ℚ := 2000

/-- Embeds `this.reconnectBackoffFactor` (1.5). -/
def reconnectBackoffFactor : ℚ := 3 / 2

/-- Embeds the 30000 ms cap inside `_scheduleReconnect`. -/
def maxReconnectDelayMs : ℚ := 30000

/-- Embeds `this.maxConnectionAttempts` (10). -/
def maxConnectionAttempts : Nat := 10

/-- The computed backoff delay (part_002 496-499):
`Math.min(reconnectDelay * backoffFactor^attempts, 30000)`. -/
def backoffDelay (connectionAttempts : Nat) : ℚ :=
  min (reconnectDelayMs * reconnectBackoffFactor ^ connectionAttempts)
    maxReconnectDelayMs

/-- The observable result of `_scheduleReconnect`: the delay of the timer
it arms, if any, and the events it raises. -/
structure ScheduleResult where
  timer : Option ℚ
  events : List ClientEvent
deriving Repr, DecidableEq

/-- Embeds `_scheduleReconnect` (part_002 476-512): at or above the
attempt cap no timer is armed and the terminal condition is reported by
the max_reconnect_attempts event (the function returns normally — no
exception path exists); below the cap a reconnect timer is armed with
the backoff delay. -/
def scheduleReconnect (connectionAttempts : Nat) : ScheduleResult :=
  if connectionAttempts ≥ maxConnectionAttempts then
    { timer := none
      events := [ClientEvent.maxReconnectAttempts connectionAttempts maxConnectionAttempts] }
  else
    { timer := some (backoffDelay connectionAttempts), events := [] }

/-! ## Authentication round-trip teardown (`authenticate`, mqtt-client.js 844-924) -/

/-- The per-request resources of one `authenticate` call once its setup
has run (response-topic subscription, message listener, pending timeout
timer). -/
structure AuthSubscriptionState where
  subscribed : Bool
  listenerAttached : Bool
  timeoutPending : Bool
deriving Repr, DecidableEq

/-- The four ways a set-up `authenticate` call settles. -/
inductive AuthCompletion
  | responseSuccess
  | responseFailure
  | publishError
  | timeout
deriving Repr, DecidableEq

/-- The cleanup operations appearing in `authenticate`. -/
inductive TeardownAction
  | clearTimeoutTimer
  | unsubscribeResponseTopic
  | removeMessageListener
deriving Repr, DecidableEq

/-- Effect of one cleanup operation on the per-request resources. -/
def applyTeardown (st : AuthSubscriptionState) :
    TeardownAction → AuthSubscriptionState
  | TeardownAction.clearTimeoutTimer => { st with timeoutPending := false }
  | TeardownAction.unsubscribeResponseTopic => { st with subscribed := false }
  | TeardownAction.removeMessageListener => { st with listenerAttached := false }

/-- The cleanup operations each settling path runs, transcribed from the
source: the response handler (success and failure alike, mqtt-client.js
884-886) and the publish-error callback (914-916) run clearTimeout,
unsubscribe and removeListener; the timeout callback (877-878) runs only
the unsubscribe. -/
def authCompletionActions : AuthCompletion → List TeardownAction
  | AuthCompletion.responseSuccess =>
      [TeardownAction.clearTimeoutTimer, TeardownAction.unsubscribeResponseTopic,
       TeardownAction.removeMessageListener]
  | AuthCompletion.responseFailure =>
      [TeardownAction.clearTimeoutTimer, TeardownAction.unsubscribeResponseTopic,
       TeardownAction.removeMessageListener]
  | AuthCompletion.publishError =>
      [TeardownAction.clearTimeoutTimer, TeardownAction.unsubscribeResponseTopic,
       TeardownAction.removeMessageListener]
  | AuthCompletion.timeout => [TeardownAction.unsubscribeResponseTopic]

/-- The per-request resource state after a settling path has run its
cleanup.  On the timeout path the timer has fired, so its pending flag
drops regardless of actions. -/
def authSettle (p : AuthCompletion) (st : AuthSubscriptionState) :
    AuthSubscriptionState :=
  (authCompletionActions p).foldl applyTeardown
    (if p = AuthCompletion.timeout then { st with timeoutPending := false } else st)

/-- The resource state right after `authenticate` finished its setup
(subscribed at 866, timer armed at 876, listener attached at 901). -/
def authSetupState : AuthSubscriptionState :=
  { subscribed := true, listenerAttached := true, timeoutPending := true }

/-! ## Message routing and handler isolation
(`_processMessage` mqtt-client.js 752-793, `_triggerEvent` part_002 881-891) -/

/-- What the router records for one handler invocation: normal return, or
an exception caught and logged by the surrounding try/catch. -/
inductive HandlerOutcome
  | ok
  | caught (err : String)
deriving Repr, DecidableEq

/-- Runs one handler under the router's per-handler try/catch. -/
def runIsolated {α : Type} (h : α → Except String Unit) (msg : α) :
    HandlerOutcome :=
  match h msg with
  | Except.ok _ => HandlerOutcome.ok
  | Except.error e => HandlerOutcome.caught e

/-- Embeds the `forEach` loop with try/catch per handler: each handler in
order receives the message, its outcome is recorded, and iteration
continues regardless of errors. -/
def routeHandlers {α : Type} (handlers : List (α → Except String Unit))
    (msg : α) : List HandlerOutcome :=
  handlers.foldl (fun delivered h => delivered ++ [runIsolated h msg]) []

/-- Embeds the routing portion of `_processMessage` (mqtt-client.js
765-786): topic-specific handlers run first, then the global handlers,
each under its own try/catch. -/
def processMessage {α : Type}
    (messageHandlers globalHandlers : List (α → Except String Unit))
    (msg : α) : List HandlerOutcome :=
  routeHandlers messageHandlers msg ++ routeHandlers globalHandlers msg

/-- Embeds `_triggerEvent` (part_002 881-891): every registered callback
for the event runs under its own try/catch. -/
def triggerEventCallbacks {β : Type}
    (callbacks : List (β → Except String Unit)) (data : β) :
    List HandlerOutcome :=
  callbacks.foldl (fun delivered cb => delivered ++ [runIsolated cb data]) []

/-! ## Concrete sample states used by the witnesses -/

/-- Storage with no persisted tokens. -/
def emptyStorage : TokenStorage :=
  { authTokens := fun _ => none, sessionExpiries := fun _ => none,
    lastDeviceId := none }

/-- Storage holding tokens for the two devices clock_a and clock_b. -/
def twoDeviceStorage : TokenStorage :=
  { authTokens := fun d =>
      if d = "clock_a" then some "token_a"
      else if d = "clock_b" then some "token_b" else none
    sessionExpiries := fun d =>
      if d = "clock_a" then some 500
      else if d = "clock_b" then some 800 else none
    lastDeviceId := some "clock_b" }

/-- A connected, authenticated client for device clock1. -/
def connectedAuthedState : ClientState :=
  { currentDeviceId := "clock1", clientExists := true, connected := true,
    authRequired := true,
    auth := { authToken := some "tok", tokenExpiry := some 1000 },
    storage := emptyStorage, topics := none, subscriptions := [],
    messageQueue := [], maxQueueSize := 50, processQueueOnReconnect := true,
    messagesSent := 0 }

/-- A disconnected client for device clock1 with authentication mandated
and no token. -/
def disconnectedNoTokenState : ClientState :=
  { currentDeviceId := "clock1", clientExists := false, connected := false,
    authRequired := true, auth := { authToken := none, tokenExpiry := none },
    storage := emptyStorage, topics := none, subscriptions := [],
    messageQueue := [], maxQueueSize := 50, processQueueOnReconnect := true,
    messagesSent := 0 }

/-- Three pending publishes, used against a queue of capacity two. -/
def exampleQueueItems : List PendingItem :=
  [{ topic := "smartclock/x/test", message := "m1",
     options := { qos := 0, retain := false }, now := 1 },
   { topic := "smartclock/x/test", message := "m2",
     options := { qos := 0, retain := false }, now := 2 },
   { topic := "smartclock/x/test", message := "m3",
     options := { qos := 1, retain := false }, now := 3 }]

/-! ## Helper lemmas -/

/-- Folding `_queueMessage` over a batch of pending publishes keeps the
most recent `maxN` entries: the result is the suffix of the full entry
sequence that fits the capacity. -/
theorem enqueueFrom_eq_drop (maxN : Nat) (hmax : 1 ≤ maxN) :
    ∀ (items : List PendingItem) (q : List QueueEntry), q.length ≤ maxN →
      enqueueFrom maxN q items =
        (q ++ items.map toQueueEntry).drop (q.length + items.length - maxN) := by
  intro items
  induction items with
  | nil =>
      intro q hq
      simp [enqueueFrom, Nat.sub_eq_zero_of_le hq]
  | cons i rest ih =>
      intro q hq
      have hstep : enqueueFrom maxN q (i :: rest) =
          enqueueFrom maxN (queueMessage q maxN i.topic i.message i.options i.now)
            rest := rfl
      by_cases hfull : maxN ≤ q.length
      · have hqlen : q.length = maxN := le_antisymm hq hfull
        cases q with
        | nil =>
            exfalso
            simp only [List.length_nil] at hqlen
            omega
        | cons a tl =>
            simp only [List.length_cons] at hqlen
            have hq1 : queueMessage (a :: tl) maxN i.topic i.message i.options i.now =
                tl ++ [toQueueEntry i] := by
              simp only [queueMessage]
              rw [if_pos (by simp only [List.length_cons]; omega)]
              rfl
            rw [hstep, hq1, ih (tl ++ [toQueueEntry i]) (by simp; omega)]
            have hidx1 : (tl ++ [toQueueEntry i]).length + rest.length - maxN =
                rest.length := by simp; omega
            have hidx2 : (a :: tl).length + (i :: rest).length - maxN =
                rest.length + 1 := by simp; omega
            rw [hidx1, hidx2]
            simp [List.append_assoc, List.drop_succ_cons]
      · have hlt : q.length < maxN := by omega
        have hq1 : queueMessage q maxN i.topic i.message i.options i.now =
            q ++ [toQueueEntry i] := by
          simp only [queueMessage]
          rw [if_neg (by omega)]
          rfl
        rw [hstep, hq1, ih (q ++ [toQueueEntry i]) (by simp; omega)]
        have hidx : (q ++ [toQueueEntry i]).length + rest.length - maxN =
            q.length + (i :: rest).length - maxN := by simp; omega
        rw [hidx]
        simp [List.append_assoc]

/-- Folding a snoc-accumulator over a list appends the mapped list. -/
theorem foldl_snoc_eq_map {α β : Type} (f : α → β) (l : List α) :
    ∀ acc : List β, l.foldl (fun d h => d ++ [f h]) acc = acc ++ l.map f := by
  induction l with
  | nil => intro acc; simp
  | cons h tl ih => intro acc; simp [ih]

/-! ## C3 — offline queue drop-oldest policy -/

/-- C3: enqueuing N+1 items into an offline queue of capacity N (N ≥ 1)
retains exactly N entries, namely everything but the first-enqueued item
(drop-oldest FIFO).  `queueMessage` is a total function, so enqueue never
blocks and never rejects. -/
theorem offline_queue_drop_oldest (N : Nat) (items : List PendingItem)
    (hN : 1 ≤ N) (hlen : items.length = N + 1) :
    enqueueAll N items = (items.drop 1).map toQueueEntry ∧
    (enqueueAll N items).length = N := by
  have h := enqueueFrom_eq_drop N hN items [] (by simp)
  have hfirst : enqueueAll N items = (items.drop 1).map toQueueEntry := by
    rw [enqueueAll, h]
    have hidx : ([] : List QueueEntry).length + items.length - N = 1 := by
      simp only [List.length_nil, hlen]
      omega
    rw [hidx]
    simp [List.map_drop]
  refine ⟨hfirst, ?_⟩
  rw [hfirst]
  simp [hlen]

/-- Witness for C3 at capacity 2 with three enqueues. -/
theorem offline_queue_drop_oldest_witness :
    enqueueAll 2 exampleQueueItems =
      (exampleQueueItems.drop 1).map toQueueEntry ∧
    (enqueueAll 2 exampleQueueItems).length = 2 :=
  offline_queue_drop_oldest 2 exampleQueueItems (by decide) (by decide)

/-! ## C8 — handler exception isolation -/

/-- C8: for every inbound message and every ordering of registered
handlers, each topic-specific and global handler receives the message
exactly once, in order, independent of any other handler throwing: the
routing result is the pointwise isolated run of every handler, and the
router is a total function (a thrown handler exception becomes a logged
`caught` outcome and never propagates).  The same holds for the event
callbacks run by `_triggerEvent`. -/
theorem handler_exceptions_isolated {α β : Type}
    (messageHandlers globalHandlers : List (α → Except String Unit))
    (eventCallbacks : List (β → Except String Unit)) (msg : α) (payload : β) :
    processMessage messageHandlers globalHandlers msg =
      messageHandlers.map (fun h => runIsolated h msg) ++
        globalHandlers.map (fun h => runIsolated h msg) ∧
    (processMessage messageHandlers globalHandlers msg).length =
      messageHandlers.length + globalHandlers.length ∧
    triggerEventCallbacks eventCallbacks payload =
      eventCallbacks.map (fun cb => runIsolated cb payload) ∧
    (triggerEventCallbacks eventCallbacks payload).length =
      eventCallbacks.length := by
  have h1 : ∀ (hs : List (α → Except String Unit)),
      routeHandlers hs msg = hs.map (fun h => runIsolated h msg) := by
    intro hs
    simpa [routeHandlers] using
      foldl_snoc_eq_map (fun h => runIsolated h msg) hs []
  have h3 : triggerEventCallbacks eventCallbacks payload =
      eventCallbacks.map (fun cb => runIsolated cb payload) := by
    simpa [triggerEventCallbacks] using
      foldl_snoc_eq_map (fun cb => runIsolated cb payload) eventCallbacks []
  refine ⟨?_, ?_, h3, ?_⟩
  · simp [processMessage, h1]
  · simp [processMessage, h1]
  · simp [h3]

/-! ## C5 — topic derivation -/

/-- C5: for every non-empty identifier without surrounding whitespace,
`setDeviceId` succeeds and derives the topic set as the prefix followed
by the device key (identifier lower-cased, non-alphanumerics replaced by
underscore) followed by the channel name, for each channel; the derived
set depends only on the identifier (same identifier, same topic set,
whatever the prior state or time). -/
theorem setDeviceId_derives_topics (d : String) (s sB : ClientState)
    (now nowB : Int) (htrim : jsTrim d = d) (hne : d ≠ "") :
    (setDeviceId d s now).1 = true ∧
    (setDeviceId d s now).2.1.topics =
      some { command := topicBase ++ deviceKey d ++ "/command"
             status := topicBase ++ deviceKey d ++ "/status"
             alarm := topicBase ++ deviceKey d ++ "/alarm"
             sensors := topicBase ++ deviceKey d ++ "/sensors"
             auth := topicBase ++ deviceKey d ++ "/auth"
             authResponse := topicBase ++ deviceKey d ++ "/auth/response/\x7bclientId\x7d"
             test := topicBase ++ deviceKey d ++ "/test" } ∧
    (setDeviceId d sB nowB).2.1.topics = (setDeviceId d s now).2.1.topics := by
  have hguard : ¬ (d = "" ∨ jsTrim d = "") := by
    rw [htrim]
    simp [hne]
  have htopics : ∀ (s3 : ClientState) (n : Int),
      (setDeviceId d s3 n).2.1.topics =
        some { command := topicBase ++ deviceKey d ++ "/command"
               status := topicBase ++ deviceKey d ++ "/status"
               alarm := topicBase ++ deviceKey d ++ "/alarm"
               sensors := topicBase ++ deviceKey d ++ "/sensors"
               auth := topicBase ++ deviceKey d ++ "/auth"
               authResponse := topicBase ++ deviceKey d ++ "/auth/response/\x7bclientId\x7d"
               test := topicBase ++ deviceKey d ++ "/test" } := by
    intro s3 n
    simp [setDeviceId, hguard, htrim, updateTopicsForDevice, hne]
  exact ⟨by simp [setDeviceId, hguard], htopics s now,
    (htopics sB nowB).trans (htopics s now).symm⟩

/-- Witness for C5: the spec scenario device "Kitchen Clock", whose
command topic evaluates to smartclock/kitchen_clock/command. -/
theorem setDeviceId_derives_topics_witness :
    ((setDeviceId "Kitchen Clock" connectedAuthedState 0).1 = true ∧
     (setDeviceId "Kitchen Clock" connectedAuthedState 0).2.1.topics =
       some { command := topicBase ++ deviceKey "Kitchen Clock" ++ "/command"
              status := topicBase ++ deviceKey "Kitchen Clock" ++ "/status"
              alarm := topicBase ++ deviceKey "Kitchen Clock" ++ "/alarm"
              sensors := topicBase ++ deviceKey "Kitchen Clock" ++ "/sensors"
              auth := topicBase ++ deviceKey "Kitchen Clock" ++ "/auth"
              authResponse := topicBase ++ deviceKey "Kitchen Clock" ++
                "/auth/response/\x7bclientId\x7d"
              test := topicBase ++ deviceKey "Kitchen Clock" ++ "/test" } ∧
     (setDeviceId "Kitchen Clock" disconnectedNoTokenState 5).2.1.topics =
       (setDeviceId "Kitchen Clock" connectedAuthedState 0).2.1.topics) ∧
    topicBase ++ deviceKey "Kitchen Clock" ++ "/command" =
      "smartclock/kitchen_clock/command" :=
  ⟨setDeviceId_derives_topics "Kitchen Clock" connectedAuthedState
      disconnectedNoTokenState 0 5 (by decide) (by decide),
   by decide⟩

/-! ## C10 — blank device id is rejected without effect -/

/-- C10: for every empty or whitespace-only input, `setDeviceId` returns
false, leaves the entire client state (active device, topics, token
state, subscriptions, queue) untouched, and emits no event. -/
theorem setDeviceId_blank_rejected (input : String) (s : ClientState)
    (now : Int) (h : jsTrim input = "") :
    setDeviceId input s now = (false, s, []) := by
  unfold setDeviceId
  rw [if_pos (Or.inr h)]

/-- Witness for C10 on a whitespace-only input. -/
theorem setDeviceId_blank_rejected_witness :
    setDeviceId "   " connectedAuthedState 0 = (false, connectedAuthedState, []) :=
  setDeviceId_blank_rejected "   " connectedAuthedState 0 (by decide)

/-! ## C9 — clearing one device's token leaves other devices intact -/

/-- C9: clearing the token of device A removes exactly A's token and
expiry records; any other device B keeps both records and its token is
still loadable with an unchanged result. -/
theorem clearAuthToken_only_current_device (A B : String) (st stB : AuthState)
    (storage : TokenStorage) (now : Int)
    (hA : A ≠ "") (hB : B ≠ "") (hBA : B ≠ A) :
    (clearAuthToken A st storage).2.authTokens A = none ∧
    (clearAuthToken A st storage).2.sessionExpiries A = none ∧
    (clearAuthToken A st storage).2.authTokens B = storage.authTokens B ∧
    (clearAuthToken A st storage).2.sessionExpiries B = storage.sessionExpiries B ∧
    (loadAuthToken stB B (clearAuthToken A st storage).2 now).1 =
      (loadAuthToken stB B storage now).1 := by
  have h1 : (clearAuthToken A st storage).2.authTokens B = storage.authTokens B := by
    simp [clearAuthToken, hA, hBA]
  have h2 : (clearAuthToken A st storage).2.sessionExpiries B =
      storage.sessionExpiries B := by
    simp [clearAuthToken, hA, hBA]
  refine ⟨by simp [clearAuthToken, hA], by simp [clearAuthToken, hA], h1, h2, ?_⟩
  unfold loadAuthToken
  rw [if_neg hB, if_neg hB, h1, h2]
  cases hTok : storage.authTokens B with
  | none => rfl
  | some tB =>
      cases hExp : storage.sessionExpiries B with
      | none => rfl
      | some eB =>
          by_cases hcond : tB ≠ "" ∧ eB ≠ 0 ∧ now < eB
          · simp [hcond]
          · simp [hcond]

/-- Witness for C9 with the two stored devices clock_a and clock_b. -/
theorem clearAuthToken_only_current_device_witness :
    (clearAuthToken "clock_a" { authToken := some "token_a", tokenExpiry := some 500 }
        twoDeviceStorage).2.authTokens "clock_a" = none ∧
    (clearAuthToken "clock_a" { authToken := some "token_a", tokenExpiry := some 500 }
        twoDeviceStorage).2.sessionExpiries "clock_a" = none ∧
    (clearAuthToken "clock_a" { authToken := some "token_a", tokenExpiry := some 500 }
        twoDeviceStorage).2.authTokens "clock_b" =
      twoDeviceStorage.authTokens "clock_b" ∧
    (clearAuthToken "clock_a" { authToken := some "token_a", tokenExpiry := some 500 }
        twoDeviceStorage).2.sessionExpiries "clock_b" =
      twoDeviceStorage.sessionExpiries "clock_b" ∧
    (loadAuthToken { authToken := none, tokenExpiry := none } "clock_b"
        (clearAuthToken "clock_a" { authToken := some "token_a", tokenExpiry := some 500 }
          twoDeviceStorage).2 100).1 =
      (loadAuthToken { authToken := none, tokenExpiry := none } "clock_b"
        twoDeviceStorage 100).1 :=
  clearAuthToken_only_current_device "clock_a" "clock_b"
    { authToken := some "token_a", tokenExpiry := some 500 }
    { authToken := none, tokenExpiry := none }
    twoDeviceStorage 100 (by decide) (by decide) (by decide)

/-! ## C4 — reconnect backoff monotone, terminal attempt cap -/

/-- C4: the computed backoff delay min(base · factor^attempts, cap) is
non-decreasing in the attempt count and never exceeds the cap; below the
maximum attempt count a reconnect timer is armed with that delay, and at
or above it no reconnect is scheduled — the terminal condition is
reported by the max_reconnect_attempts event and the scheduler returns
normally (no exception path exists in the model). -/
theorem reconnect_backoff_monotone_and_terminal (a b d c : Nat) (hab : a ≤ b)
    (hd : d < maxConnectionAttempts) (hc : maxConnectionAttempts ≤ c) :
    backoffDelay a ≤ backoffDelay b ∧
    backoffDelay a ≤ maxReconnectDelayMs ∧
    scheduleReconnect d = { timer := some (backoffDelay d), events := [] } ∧
    scheduleReconnect c =
      { timer := none
        events := [ClientEvent.maxReconnectAttempts c maxConnectionAttempts] } := by
  refine ⟨?_, min_le_right _ _, ?_, ?_⟩
  · unfold backoffDelay
    refine min_le_min ?_ le_rfl
    have hfac : (1 : ℚ) ≤ reconnectBackoffFactor := by
      norm_num [reconnectBackoffFactor]
    have hbase : (0 : ℚ) ≤ reconnectDelayMs := by norm_num [reconnectDelayMs]
    exact mul_le_mul_of_nonneg_left (pow_le_pow_right₀ hfac hab) hbase
  · unfold scheduleReconnect
    rw [if_neg (by omega)]
  · unfold scheduleReconnect
    rw [if_pos (by omega)]

/-- Witness for C4 at attempts 2 ≤ 3, a scheduled attempt 4, and the
terminal attempt 10. -/
theorem reconnect_backoff_witness :
    backoffDelay 2 ≤ backoffDelay 3 ∧
    backoffDelay 2 ≤ maxReconnectDelayMs ∧
    scheduleReconnect 4 = { timer := some (backoffDelay 4), events := [] } ∧
    scheduleReconnect 10 =
      { timer := none
        events := [ClientEvent.maxReconnectAttempts 10 maxConnectionAttempts] } :=
  reconnect_backoff_monotone_and_terminal 2 3 4 10 (by decide) (by decide)
    (by decide)

/-! ## C1 — sendCommand while disconnected -/

/-- C1 counterexample: on a disconnected client with authentication
mandated and no token, `sendCommand` rejects with the not-connected
error, not the authentication-required error the claim states (the
connection check precedes the authentication check); no queue entry is
created. -/
theorem sendCommand_disconnected_counterexample :
    (sendCommand disconnectedNoTokenState 0 "setAlarm" CommandData.empty).2 =
      Except.error ClientError.notConnected ∧
    (Except.error ClientError.notConnected :
        Except ClientError CommandEnvelope) ≠
      Except.error ClientError.authenticationRequired ∧
    (sendCommand disconnectedNoTokenState 0 "setAlarm" CommandData.empty).1.messageQueue
      = [] :=
  ⟨rfl, by simp, rfl⟩

/-- C1 (amended): for every command and payload, `sendCommand` on a
disconnected client with authentication mandated and no valid token
rejects with the not-connected error and leaves the state — in
particular the offline queue — untouched, while plain `publish` in the
same state queues the message and resolves. -/
theorem sendCommand_disconnected_rejects (command : String) (data : CommandData)
    (topic message : String) (options : PublishOptions)
    (s : ClientState) (now : Int)
    (hdev : s.currentDeviceId ≠ "") (hconn : s.connected = false)
    (hauth : s.authRequired = true) (htok : s.auth.authToken = none)
    (hq : s.processQueueOnReconnect = true) :
    sendCommand s now command data = (s, Except.error ClientError.notConnected) ∧
    publish s now topic message options =
      ({ s with messageQueue :=
          queueMessage s.messageQueue s.maxQueueSize topic message options now },
       Except.ok PublishOutcome.queued) := by
  constructor
  · unfold sendCommand
    rw [if_neg hdev, if_pos (Or.inr (by simp [hconn]))]
  · unfold publish
    rw [if_pos ⟨by simp [hconn], by simp [hq]⟩]

/-- Witness for the amended C1 on the concrete disconnected client. -/
theorem sendCommand_disconnected_rejects_witness :
    sendCommand disconnectedNoTokenState 3 "button" (CommandData.button 1) =
      (disconnectedNoTokenState, Except.error ClientError.notConnected) ∧
    publish disconnectedNoTokenState 3 "smartclock/clock1/test" "hello"
        { qos := 0, retain := false } =
      ({ disconnectedNoTokenState with messageQueue := queueMessage disconnectedNoTokenState.messageQueue disconnectedNoTokenState.maxQueueSize "smartclock/clock1/test" "hello" { qos := 0, retain := false } 3 },
       Except.ok PublishOutcome.queued) :=
  sendCommand_disconnected_rejects "button" (CommandData.button 1)
    "smartclock/clock1/test" "hello" { qos := 0, retain := false }
    disconnectedNoTokenState 3 (by decide) rfl rfl rfl rfl

/-! ## C2 — token expiry -/

/-- C2 counterexample: a token saved for clock1 with expiry 100 and
loaded at time 100 is reported absent in memory, yet the stored record is
still present after the load — `_loadAuthToken` does not remove stale
tokens from storage, contradicting the claim's "removed from storage". -/
theorem loadAuthToken_stale_kept_counterexample :
    (loadAuthToken
        (saveAuthToken "clock1" { authToken := none, tokenExpiry := none }
          emptyStorage "tok" 100).1 "clock1"
        (saveAuthToken "clock1" { authToken := none, tokenExpiry := none }
          emptyStorage "tok" 100).2 100).1.authToken = none ∧
    (loadAuthToken
        (saveAuthToken "clock1" { authToken := none, tokenExpiry := none }
          emptyStorage "tok" 100).1 "clock1"
        (saveAuthToken "clock1" { authToken := none, tokenExpiry := none }
          emptyStorage "tok" 100).2 100).2.authTokens "clock1" = some "tok" :=
  ⟨rfl, rfl⟩

/-- C2 (amended): after saving a token with positive expiry E for a
device, any validity check at a time ≥ E reports it invalid and purges
the stored token and expiry records, and loading at such a time yields
no token in memory — but the load itself leaves the persisted storage
unchanged (purging happens on the validity check, not on load). -/
theorem token_expired_invalid_and_load_none (d t : String) (E now : Int)
    (prior : AuthState) (storage : TokenStorage)
    (hd : d ≠ "") (ht : t ≠ "") (hE : 0 < E) (hnow : E ≤ now) :
    (isTokenValid (saveAuthToken d prior storage t E).1 d
        (saveAuthToken d prior storage t E).2 now).1 = false ∧
    (isTokenValid (saveAuthToken d prior storage t E).1 d
        (saveAuthToken d prior storage t E).2 now).2.2.authTokens d = none ∧
    (isTokenValid (saveAuthToken d prior storage t E).1 d
        (saveAuthToken d prior storage t E).2 now).2.2.sessionExpiries d = none ∧
    (loadAuthToken (saveAuthToken d prior storage t E).1 d
        (saveAuthToken d prior storage t E).2 now).1 =
      { authToken := none, tokenExpiry := none } ∧
    (loadAuthToken (saveAuthToken d prior storage t E).1 d
        (saveAuthToken d prior storage t E).2 now).2 =
      (saveAuthToken d prior storage t E).2 := by
  have hE0 : E ≠ 0 := by omega
  have hnlt : ¬ now < E := by omega
  have hsave : ¬ (d = "" ∨ t = "") := by simp [hd, ht]
  refine ⟨?_, ?_, ?_, ?_, ?_⟩ <;>
    simp [saveAuthToken, isTokenValid, clearAuthToken, loadAuthToken,
      hsave, hd, ht, hE0, hnow, hnlt]

/-- Witness for the amended C2 on clock1 with expiry 100 checked at 100. -/
theorem token_expired_invalid_witness :
    (isTokenValid (saveAuthToken "clock1" { authToken := none, tokenExpiry := none }
          emptyStorage "tok" 100).1 "clock1"
        (saveAuthToken "clock1" { authToken := none, tokenExpiry := none }
          emptyStorage "tok" 100).2 100).1 = false ∧
    (isTokenValid (saveAuthToken "clock1" { authToken := none, tokenExpiry := none }
          emptyStorage "tok" 100).1 "clock1"
        (saveAuthToken "clock1" { authToken := none, tokenExpiry := none }
          emptyStorage "tok" 100).2 100).2.2.authTokens "clock1" = none ∧
    (isTokenValid (saveAuthToken "clock1" { authToken := none, tokenExpiry := none }
          emptyStorage "tok" 100).1 "clock1"
        (saveAuthToken "clock1" { authToken := none, tokenExpiry := none }
          emptyStorage "tok" 100).2 100).2.2.sessionExpiries "clock1" = none ∧
    (loadAuthToken (saveAuthToken "clock1" { authToken := none, tokenExpiry := none }
          emptyStorage "tok" 100).1 "clock1"
        (saveAuthToken "clock1" { authToken := none, tokenExpiry := none }
          emptyStorage "tok" 100).2 100).1 =
      { authToken := none, tokenExpiry := none } ∧
    (loadAuthToken (saveAuthToken "clock1" { authToken := none, tokenExpiry := none }
          emptyStorage "tok" 100).1 "clock1"
        (saveAuthToken "clock1" { authToken := none, tokenExpiry := none }
          emptyStorage "tok" 100).2 100).2 =
      (saveAuthToken "clock1" { authToken := none, tokenExpiry := none }
        emptyStorage "tok" 100).2 :=
  token_expired_invalid_and_load_none "clock1" "tok" 100 100
    { authToken := none, tokenExpiry := none } emptyStorage
    (by decide) (by decide) (by decide) (by decide)

/-! ## C6 — authenticate teardown -/

/-- C6 counterexample: the timeout completion path of `authenticate`
tears down the response subscription but leaves the temporary message
listener attached, so not every completion path removes the listener as
the claim states. -/
theorem authenticate_timeout_listener_counterexample :
    (authSettle AuthCompletion.timeout authSetupState).subscribed = false ∧
    (authSettle AuthCompletion.timeout authSetupState).listenerAttached = true :=
  ⟨rfl, rfl⟩

/-- C6 (amended): every completion path of `authenticate` tears down the
temporary auth-response subscription; the response (success and failure)
and publish-error paths also remove the temporary message listener,
while the timeout path leaves the listener attached. -/
theorem authenticate_teardown (p : AuthCompletion) (st : AuthSubscriptionState)
    (hp : p ≠ AuthCompletion.timeout) :
    (authSettle p st).subscribed = false ∧
    (authSettle p st).listenerAttached = false ∧
    (authSettle AuthCompletion.timeout st).subscribed = false ∧
    (authSettle AuthCompletion.timeout st).listenerAttached =
      st.listenerAttached := by
  cases p with
  | responseSuccess => exact ⟨rfl, rfl, rfl, rfl⟩
  | responseFailure => exact ⟨rfl, rfl, rfl, rfl⟩
  | publishError => exact ⟨rfl, rfl, rfl, rfl⟩
  | timeout => exact absurd rfl hp

/-- Witness for the amended C6 on the success path after setup. -/
theorem authenticate_teardown_witness :
    (authSettle AuthCompletion.responseSuccess authSetupState).subscribed = false ∧
    (authSettle AuthCompletion.responseSuccess authSetupState).listenerAttached
      = false ∧
    (authSettle AuthCompletion.timeout authSetupState).subscribed = false ∧
    (authSettle AuthCompletion.timeout authSetupState).listenerAttached =
      authSetupState.listenerAttached :=
  authenticate_teardown AuthCompletion.responseSuccess authSetupState (by decide)

/-! ## C7 — typed command input validation -/

/-- C7 counterexample: `setBrightness 150` on a connected authenticated
client publishes the command envelope with the raw value 150, which lies
outside [0,100] — the client method performs no clamping; only the
config command template clamps (to 100 here). -/
theorem setBrightness_unclamped_counterexample :
    (setBrightness connectedAuthedState 7 150).2 =
      Except.ok { command := "set_brightness"
                  data := CommandData.brightness 150
                  auth := some { token := "tok", deviceId := "clock1" }
                  timestamp := 7 } ∧
    ¬ ((150 : Int) ≤ 100) ∧
    configSetBrightnessData 150 = 100 :=
  ⟨rfl, by decide, rfl⟩

/-- C7 (amended): `pressButton` rejects any button number outside 1..3
without reaching `sendCommand` and without state change; `setBrightness`
forwards its brightness argument to `sendCommand` unmodified, and the
clamp into [0,100] exists only in the config command template
`COMMANDS.SET_BRIGHTNESS`, which always yields a value in [0,100]. -/
theorem button_brightness_validation (s : ClientState) (now : Int)
    (button b : Int) (hb : button < 1 ∨ button > 3) :
    pressButton s now button = (s, Except.error ClientError.invalidButton) ∧
    setBrightness s now b =
      sendCommand s now "set_brightness" (CommandData.brightness b) ∧
    0 ≤ configSetBrightnessData b ∧ configSetBrightnessData b ≤ 100 := by
  refine ⟨?_, rfl, ?_, min_le_left _ _⟩
  · unfold pressButton
    rw [if_pos hb]
  · unfold configSetBrightnessData
    exact le_min (by norm_num) (le_max_left _ _)

/-- Witness for the amended C7 at button 4 and brightness 150. -/
theorem button_brightness_validation_witness :
    pressButton connectedAuthedState 7 4 =
      (connectedAuthedState, Except.error ClientError.invalidButton) ∧
    setBrightness connectedAuthedState 7 150 =
      sendCommand connectedAuthedState 7 "set_brightness"
        (CommandData.brightness 150) ∧
    0 ≤ configSetBrightnessData 150 ∧ configSetBrightnessData 150 ≤ 100 :=
  button_brightness_validation connectedAuthedState 7 4 150 (by decide)

end SmartClock
